import Mathlib

/-!
# clmgr-coordinator: the cluster coordinator (`pkg/cluster/cluster.go`)

A shallow embedding of the functions of `cluster.go` and the properties of the
synchronisation protocol they implement.

The collaborators declared in other packages (`pkg/common`, `pkg/db`, `pkg/node`) and the
`encoding/json` calls are parameters of the embedding, gathered in `Deps`.  Effects are made
explicit: the store is a state threaded through the client calls, and every `Set` issued,
every value sent on the error channel and every call received by the node pool is recorded,
in order, in the state.
-/

namespace Clmgr

/-! ## Go run-time behaviour -/

/-- How a run of a function ends: it returns a value, or it stops in a run-time panic
(here always the use of a nil client); both carry the state reached. -/
inductive Outcome (α S : Type) where
  | ret (a : α) (s : S)
  | panic (msg : String) (s : S)

/-- The state in which a run ended. -/
def Outcome.state {α S : Type} : Outcome α S → S
  | .ret _ s => s
  | .panic _ s => s

/-- Whether the run ended in a panic. -/
def Outcome.panicked {α S : Type} : Outcome α S → Bool
  | .ret _ _ => false
  | .panic _ _ => true

/-- The function `strings.Join` of the Go library. -/
def strings.Join (elems : List String) (sep : String) : String :=
  sep.intercalate elems

/-! ## Collaborators -/

/-- The interface `db.Client`, over a store of state `σ` holding values of type `Bytes`:
`Get` answers with a map (its entries, in iteration order) and an error, `Set` with an
error; a `Set` may change the store. -/
structure Client (σ Bytes : Type) where
  Get : σ → String → List (String × Bytes) × Option String
  Set : σ → String → Bytes → σ × Option String

/-- The lease-backed client that `db.GetTTLClient` hands out. -/
structure TTLClient (σ : Type) where
  Set : σ → String → String → σ × Option String

/-- What `cluster.go` uses and does not declare: the constants, `Config` helpers and
hostname of `pkg/common`, the two `encoding/json` calls at each record type, and
`db.GetTTLClient`.  `json.Unmarshal` works in place: it is given the bytes and the value
its destination holds, and answers with the value the destination holds afterwards and the
error. -/
structure Deps (Config Node Bytes σ : Type) where
  ClmgrKey : String
  IsAliveKey : String
  GetHostname : String
  DefaultConfig : Config
  Check : Config → Bool
  marshalConfig : Config → Except String Bytes
  unmarshalConfig : Bytes → Config → Config × Option String
  zeroNode : Node
  unmarshalNode : Bytes → Node → Node × Option String
  GetTTLClient : σ → Nat → Option (TTLClient σ)

/-- The codec answers to what "the encoding of a configuration" means: the bytes that
`json.Marshal` makes of a configuration decode without error to that configuration,
whatever the destination held. -/
def Deps.Faithful {Config Node Bytes σ : Type} (D : Deps Config Node Bytes σ) : Prop :=
  ∀ (C : Config) (data : Bytes), D.marshalConfig C = .ok data →
    ∀ dst : Config, D.unmarshalConfig data dst = (C, none)

/-! ## etcd change events -/

/-- The type of an etcd event. -/
inductive EventType where
  | PUT
  | DELETE
  deriving DecidableEq, Repr

/-- The key-value pair an event carries (`mvccpb.KeyValue`). -/
structure KeyValue (Bytes : Type) where
  Key : String
  CreateRevision : Int
  ModRevision : Int
  Value : Bytes

/-- A change event of a watch (`clientv3.Event`). -/
structure Event (Bytes : Type) where
  Typ : EventType
  Kv : KeyValue Bytes

/-- The method `IsCreate` of `clientv3.Event`. -/
def Event.IsCreate {Bytes : Type} (e : Event Bytes) : Bool :=
  e.Typ == EventType.PUT && e.Kv.CreateRevision == e.Kv.ModRevision

/-- The method `IsModify` of `clientv3.Event`. -/
def Event.IsModify {Bytes : Type} (e : Event Bytes) : Bool :=
  e.Typ == EventType.PUT && e.Kv.CreateRevision != e.Kv.ModRevision

/-- One message of a watch channel (`clientv3.WatchResponse`). -/
structure WatchResponse (Bytes : Type) where
  Events : List (Event Bytes)

/-! ## State -/

/-- A call received by the node pool (`node.Pool`). -/
inductive PoolCall (Node Bytes : Type) where
  | Add (n : Node) (self : Bool)
  | Change (key : String) (value : Bytes)

/-- A call made on a lease-backed client. -/
inductive TTLCall where
  | Set (key : String) (value : String)
  | Close
  deriving DecidableEq, Repr

/-- The struct `cluster`.  The node pool is the sequence of calls it has received, a new
pool having received none; `clnt` is `none` for a nil client. -/
structure cluster (Config Node Bytes σ : Type) where
  config : Config
  nodePool : List (PoolCall Node Bytes)
  agentPool : Unit
  clnt : Option (Client σ Bytes)

/-- What surrounds the coordinator: the store, the `Set` calls issued through `db.Client`
(key and value), the values sent on the error channel and the calls made on lease-backed
clients, each in order. -/
structure World (Bytes σ : Type) where
  store : σ
  sets : List (String × Bytes)
  errChan : List String
  ttlCalls : List TTLCall

/-- A coordinator in its surroundings. -/
structure Sys (Config Node Bytes σ : Type) where
  c : cluster Config Node Bytes σ
  w : World Bytes σ

section Ops

variable {Config Node Bytes σ : Type}

/-- The statement `errChan <- err`. -/
def World.send (err : String) (w : World Bytes σ) : World Bytes σ :=
  { w with errChan := w.errChan ++ [err] }

/-- The statement `errChan <- err`, in a system. -/
def Sys.send (err : String) (s : Sys Config Node Bytes σ) : Sys Config Node Bytes σ :=
  { s with w := s.w.send err }

/-- The call `c.clnt.Set(key, data)` on the client `cl`: the store moves on and the call is
recorded; the error is handed back. -/
def Sys.clntSet (cl : Client σ Bytes) (key : String) (data : Bytes)
    (s : Sys Config Node Bytes σ) : Sys Config Node Bytes σ × Option String :=
  let r := cl.Set s.w.store key data
  ({ s with w := { s.w with store := r.1, sets := s.w.sets ++ [(key, data)] } }, r.2)

/-- An assignment to `c.config`. -/
def Sys.setConfig (cfg : Config) (s : Sys Config Node Bytes σ) : Sys Config Node Bytes σ :=
  { s with c := { s.c with config := cfg } }

/-- The call `c.nodePool.Add(n, self)`. -/
def Sys.poolAdd (n : Node) (self : Bool) (s : Sys Config Node Bytes σ) :
    Sys Config Node Bytes σ :=
  { s with c := { s.c with nodePool := s.c.nodePool ++ [PoolCall.Add n self] } }

/-- The call `c.nodePool.Change(key, value)`. -/
def Sys.poolChange (key : String) (value : Bytes) (s : Sys Config Node Bytes σ) :
    Sys Config Node Bytes σ :=
  { s with c := { s.c with nodePool := s.c.nodePool ++ [PoolCall.Change key value] } }

/-! ## The functions of `cluster.go` -/

/-- The constructor `New`. -/
def New (D : Deps Config Node Bytes σ) : cluster Config Node Bytes σ :=
  { config := D.DefaultConfig, nodePool := [], agentPool := (), clnt := none }

/-- The function `initConfig`. -/
def initConfig (D : Deps Config Node Bytes σ) (s : Sys Config Node Bytes σ) :
    Outcome Unit (Sys Config Node Bytes σ) :=
  match s.c.clnt with
  | none => .panic "nil dereference: c.clnt.Get" s
  | some cl =>
    match cl.Get s.w.store (strings.Join [D.ClmgrKey, "config"] "/") with
    | (_, some err) => .ret () (s.send err)
    | (clConfig, none) =>
      match clConfig.lookup "/cluster/config" with
      | none =>
        match D.marshalConfig s.c.config with
        | .error err => .ret () (s.send err)
        | .ok data =>
          match s.clntSet cl (strings.Join [D.ClmgrKey, "config"] "/") data with
          | (s1, some err) => .ret () (s1.send err)
          | (s1, none) => .ret () s1
      | some data =>
        match D.unmarshalConfig data s.c.config with
        | (cfg, some err) => .ret () ((s.setConfig cfg).send err)
        | (cfg, none) => .ret () (s.setConfig cfg)

/-- The body of the innermost loop of `watchConfig`: one event of the watch on the
configuration key. -/
def watchConfigEvent (D : Deps Config Node Bytes σ) (e : Event Bytes)
    (s : Sys Config Node Bytes σ) : Sys Config Node Bytes σ :=
  if e.IsModify || e.IsCreate then
    match D.unmarshalConfig e.Kv.Value s.c.config with
    | (cfg, some err) => (s.setConfig cfg).send err
    | (cfg, none) => s.setConfig cfg
  else s

/-- The function `watchConfig`, run over the messages `rs` that its watch channel delivers. -/
def watchConfig (D : Deps Config Node Bytes σ) (rs : List (WatchResponse Bytes))
    (s : Sys Config Node Bytes σ) : Outcome Unit (Sys Config Node Bytes σ) :=
  match s.c.clnt with
  | none => .panic "nil dereference: c.clnt.Watch" s
  | some _ =>
    .ret () (rs.foldl (fun s r => r.Events.foldl (fun s e => watchConfigEvent D e s) s) s)

/-- One round of the loop of `updateAlive`, after its sleep.  The branch taken when
`ttlclnt` is nil sends the error and falls through to the calls on `ttlclnt`; a method call
on the nil client is a run-time panic. -/
def updateAliveTick (D : Deps Config Node Bytes σ) (w : World Bytes σ) :
    Outcome Unit (World Bytes σ) :=
  let ttlclnt := D.GetTTLClient w.store 30
  let w1 := match ttlclnt with
    | none => w.send "can't create TTL client"
    | some _ => w
  let key := strings.Join [D.ClmgrKey, "nodes", D.GetHostname, D.IsAliveKey] "/"
  match ttlclnt with
  | none => .panic "nil dereference: ttlclnt.Set" w1
  | some t =>
    .ret () { w1 with
      store := (t.Set w1.store key "alive").1,
      ttlCalls := w1.ttlCalls ++ [TTLCall.Set key "alive", TTLCall.Close] }

/-- The loop of `updateAlive`, for `n` rounds: a round that panics ends it. -/
def updateAlive (D : Deps Config Node Bytes σ) : Nat → World Bytes σ →
    Outcome Unit (World Bytes σ)
  | 0, w => .ret () w
  | n + 1, w =>
    match updateAliveTick D w with
    | .ret _ w1 => updateAlive D n w1
    | .panic msg w1 => .panic msg w1

/-- The body of the first loop of `watchNodes`: one entry of the snapshot. -/
def watchNodesEntry (D : Deps Config Node Bytes σ) (entry : String × Bytes)
    (s : Sys Config Node Bytes σ) : Sys Config Node Bytes σ :=
  match D.unmarshalNode entry.2 D.zeroNode with
  | (_, some err) => s.send err
  | (n, none) => s.poolAdd n false

/-- The first part of `watchNodes`, up to the watch: the registry is filled from a
snapshot of the node keys. -/
def watchNodesBootstrap (D : Deps Config Node Bytes σ) (s : Sys Config Node Bytes σ) :
    Outcome Unit (Sys Config Node Bytes σ) :=
  match s.c.clnt with
  | none => .panic "nil dereference: c.clnt.Get" s
  | some cl =>
    let r := cl.Get s.w.store (strings.Join [D.ClmgrKey, "nodes"] "/")
    let s1 := match r.2 with
      | some err => s.send err
      | none => s
    .ret () (r.1.foldl (fun s entry => watchNodesEntry D entry s) s1)

/-- The body of the innermost loop of the watch of `watchNodes`: one event. -/
def watchNodesEvent (D : Deps Config Node Bytes σ) (e : Event Bytes)
    (s : Sys Config Node Bytes σ) : Sys Config Node Bytes σ :=
  if e.IsModify then
    s.poolChange e.Kv.Key e.Kv.Value
  else
    s.poolAdd (D.unmarshalNode e.Kv.Value D.zeroNode).1 false

/-- The function `watchNodes`, run over the messages `rs` that its watch channel delivers. -/
def watchNodes (D : Deps Config Node Bytes σ) (rs : List (WatchResponse Bytes))
    (s : Sys Config Node Bytes σ) : Outcome Unit (Sys Config Node Bytes σ) :=
  match watchNodesBootstrap D s with
  | .panic msg s1 => .panic msg s1
  | .ret _ s1 =>
    .ret () (rs.foldl (fun s r => r.Events.foldl (fun s e => watchNodesEvent D e s) s) s1)

/-- The method `AddConfig`; its value is the error returned, `none` for nil. -/
def AddConfig (D : Deps Config Node Bytes σ) (config : Config)
    (s : Sys Config Node Bytes σ) : Outcome (Option String) (Sys Config Node Bytes σ) :=
  if !D.Check config then
    .ret (some "config contains bad value") s
  else
    match D.marshalConfig config with
    | .error err => .ret (some err) s
    | .ok data =>
      match s.c.clnt with
      | none => .panic "nil dereference: c.clnt.Set" s
      | some cl =>
        match s.clntSet cl (strings.Join [D.ClmgrKey, "config"] "/") data with
        | (s1, some err) => .ret (some err) s1
        | (s1, none) => .ret none (s1.setConfig config)

/-- The method `GetConfig`. -/
def GetConfig (c : cluster Config Node Bytes σ) : Config :=
  c.config

/-- The method `Nodes`. -/
def Nodes (c : cluster Config Node Bytes σ) : List (PoolCall Node Bytes) :=
  c.nodePool

/-! ## Vocabulary of the statements -/

/-- The nodes that the entries of a snapshot decode to, in the order of the entries; an
entry that fails to decode gives none. -/
def decodedNodes (D : Deps Config Node Bytes σ) (entries : List (String × Bytes)) :
    List Node :=
  entries.filterMap (fun entry =>
    match D.unmarshalNode entry.2 D.zeroNode with
    | (n, none) => some n
    | (_, some _) => none)

/-- The errors of the entries of a snapshot that fail to decode, in the order of the
entries. -/
def decodeErrors (D : Deps Config Node Bytes σ) (entries : List (String × Bytes)) :
    List String :=
  entries.filterMap (fun entry => (D.unmarshalNode entry.2 D.zeroNode).2)

end Ops

/-! ## A concrete coordinator

The functions above are run on concrete inputs over the records, the JSON decoding and the
store below. -/

/-- A JSON value, as far as decoding into scalar fields tells values apart: arrays, objects
and numbers that are no integers are all `composite`. -/
inductive JSON where
  | null
  | bool (b : Bool)
  | number (n : Int)
  | string (s : String)
  | composite
  deriving DecidableEq, Repr

/-- Stored bytes, as `encoding/json` reads them: bytes that are no JSON text, a JSON text
that is no object, or an object with its members in order. -/
inductive Doc where
  | garbage (raw : String)
  | value (v : JSON)
  | object (members : List (String × JSON))
  deriving DecidableEq, Repr

/-- Decoding of the members of a JSON object into a Go struct: the members are taken in
order, each through `field`, which sets the field the key names or answers with an error
and leaves the struct alone; decoding goes on after an error, and the first error is the
one kept. -/
def decodeMembers {T : Type} (field : String → JSON → T → T × Option String) :
    List (String × JSON) → T → Option String → T × Option String
  | [], dst, saved => (dst, saved)
  | (k, v) :: rest, dst, saved =>
    match field k v dst with
    | (dst1, err) => decodeMembers field rest dst1 (saved <|> err)

/-- The call `json.Unmarshal(data, &dst)` for a struct: bytes that are no JSON text are
refused before anything is written; `null` is accepted and changes nothing; another value
that is no object is an error; an object is decoded member by member. -/
def jsonUnmarshal {T : Type} (field : String → JSON → T → T × Option String)
    (typeName : String) : Doc → T → T × Option String
  | .garbage _, dst => (dst, some "invalid character looking for beginning of value")
  | .value .null, dst => (dst, none)
  | .value _, dst => (dst, some ("json: cannot unmarshal into Go value of type " ++ typeName))
  | .object members, dst => decodeMembers field members dst none

/-- Modelled from the spec: the record `Config` of `pkg/common`, "a structured record" of
"cluster-wide tunables" whose fields the spec leaves open; one integer and one string field
stand for them. -/
structure SampleConfig where
  Quorum : Int
  Name : String
  deriving DecidableEq, Repr

/-- Decoding of one member of a JSON object into a `SampleConfig`: a key that names no
field is skipped, `null` changes nothing, a value of the wrong JSON type is an error.  Keys
are compared as they are; `encoding/json` also takes a key that differs from the field name
in letter case only. -/
def SampleConfig.field (k : String) (v : JSON) (dst : SampleConfig) :
    SampleConfig × Option String :=
  if k = "Quorum" then
    match v with
    | .null => (dst, none)
    | .number n => ({ dst with Quorum := n }, none)
    | _ => (dst, some "json: cannot unmarshal into Go struct field Config.Quorum of type int")
  else if k = "Name" then
    match v with
    | .null => (dst, none)
    | .string s => ({ dst with Name := s }, none)
    | _ => (dst, some "json: cannot unmarshal into Go struct field Config.Name of type string")
  else (dst, none)

/-- The call `json.Marshal` on a `SampleConfig`: all fields, in their order. -/
def SampleConfig.marshal (c : SampleConfig) : Except String Doc :=
  .ok (.object [("Quorum", .number c.Quorum), ("Name", .string c.Name)])

/-- Modelled from the spec: the record `Node` of `pkg/node`, with the attributes the spec
lists, "identifier (host name, unique)" and "liveness flag". -/
structure SampleNode where
  Name : String
  Alive : Bool
  deriving DecidableEq, Repr

/-- Decoding of one member of a JSON object into a `SampleNode`. -/
def SampleNode.field (k : String) (v : JSON) (dst : SampleNode) :
    SampleNode × Option String :=
  if k = "Name" then
    match v with
    | .null => (dst, none)
    | .string s => ({ dst with Name := s }, none)
    | _ => (dst, some "json: cannot unmarshal into Go struct field Node.Name of type string")
  else if k = "Alive" then
    match v with
    | .null => (dst, none)
    | .bool b => ({ dst with Alive := b }, none)
    | _ => (dst, some "json: cannot unmarshal into Go struct field Node.Alive of type bool")
  else (dst, none)

/-- The store of the concrete coordinator: its keys and values. -/
abbrev MemStore : Type := List (String × Doc)

/-- A client of the in-memory store: `Get` reads all keys that start with the key asked
for, `Set` replaces the value of a key; `setErr` is the error every `Set` answers with, in
which case nothing is written. -/
def memClient (setErr : Option String) : Client MemStore Doc where
  Get := fun st key => (st.filter (fun kv => key.data.isPrefixOf kv.1.data), none)
  Set := fun st key value =>
    match setErr with
    | some err => (st, some err)
    | none => ((key, value) :: st.filter (fun kv => kv.1 != key), none)

/-- A lease-backed client of the in-memory store: the liveness key holds a string. -/
def memTTLClient : TTLClient MemStore where
  Set := fun st key value => ((key, Doc.value (.string value)) :: st, none)

/-- The collaborators of the concrete coordinator; `ttl` tells whether a lease-backed
client can be had. -/
def sampleDeps (ttl : Bool) : Deps SampleConfig SampleNode Doc MemStore where
  ClmgrKey := "/cluster"
  IsAliveKey := "alive"
  GetHostname := "host1"
  DefaultConfig := { Quorum := 1, Name := "default" }
  Check := fun c => decide (0 < c.Quorum)
  marshalConfig := SampleConfig.marshal
  unmarshalConfig := jsonUnmarshal SampleConfig.field "Config"
  zeroNode := { Name := "", Alive := false }
  unmarshalNode := jsonUnmarshal SampleNode.field "Node"
  GetTTLClient := fun _ _ => if ttl then some memTTLClient else none

/-- A concrete system: a coordinator with configuration `cfg` and the client `cl`, over the
store `st`, nothing done yet. -/
def sampleSys (cfg : SampleConfig) (cl : Client MemStore Doc) (st : MemStore) :
    Sys SampleConfig SampleNode Doc MemStore :=
  { c := { config := cfg, nodePool := [], agentPool := (), clnt := some cl },
    w := { store := st, sets := [], errChan := [], ttlCalls := [] } }

end Clmgr

namespace Clmgr

/-! ## Lemmas -/

section Lemmas

variable {Config Node Bytes σ : Type}

/-- With the root `/cluster`, the configuration key is the key `initConfig` looks up. -/
theorem configKey_of_root (root : String) (h : root = "/cluster") :
    strings.Join [root, "config"] "/" = "/cluster/config" := by
  subst h
  decide

/-- The codec of the concrete coordinator decodes what it encodes. -/
theorem sampleDeps_faithful (ttl : Bool) : (sampleDeps ttl).Faithful := by
  intro C data h dst
  simp only [sampleDeps, SampleConfig.marshal, Except.ok.injEq] at h
  subst h
  rfl

end Lemmas

/-! ## AddConfig -/

section AddConfigThms

variable {Config Node Bytes σ : Type}

/-- C1 (write-before-cache): when the candidate passes `Check` and encodes, and the `Set`
of the configuration key fails, `AddConfig` returns the error of the `Set` and the
configuration that `GetConfig` returns is the one from before the call. -/
theorem AddConfig_set_failure_keeps_config (D : Deps Config Node Bytes σ)
    (s : Sys Config Node Bytes σ) (config : Config) (data : Bytes)
    (cl : Client σ Bytes) (err : String)
    (hcheck : D.Check config = true)
    (henc : D.marshalConfig config = .ok data)
    (hcl : s.c.clnt = some cl)
    (hset : (cl.Set s.w.store (strings.Join [D.ClmgrKey, "config"] "/") data).2 = some err) :
    ∃ s1, AddConfig D config s = .ret (some err) s1 ∧ GetConfig s1.c = GetConfig s.c := by
  refine ⟨(s.clntSet cl (strings.Join [D.ClmgrKey, "config"] "/") data).1, ?_, rfl⟩
  simp only [AddConfig, hcheck, henc, hcl, Sys.clntSet, hset]
  rfl

/-- Witness of C1: a valid candidate offered through a client whose `Set` fails. -/
theorem AddConfig_set_failure_keeps_config_witness :
    ∃ s1, AddConfig (sampleDeps true) ⟨5, "b"⟩
        (sampleSys ⟨3, "a"⟩ (memClient (some "etcdserver: request timed out")) [])
        = .ret (some "etcdserver: request timed out") s1 ∧
      GetConfig s1.c
        = GetConfig (sampleSys ⟨3, "a"⟩ (memClient (some "etcdserver: request timed out")) []).c :=
  AddConfig_set_failure_keeps_config (sampleDeps true)
    (sampleSys ⟨3, "a"⟩ (memClient (some "etcdserver: request timed out")) [])
    ⟨5, "b"⟩ (.object [("Quorum", .number 5), ("Name", .string "b")])
    (memClient (some "etcdserver: request timed out")) "etcdserver: request timed out"
    (by decide) rfl rfl rfl

/-- C2: when the candidate fails `Check`, `AddConfig` returns an error and the state after
the call is the state before it: no `Set` was issued and the configuration is the same. -/
theorem AddConfig_invalid_no_mutation (D : Deps Config Node Bytes σ)
    (s : Sys Config Node Bytes σ) (config : Config)
    (hcheck : D.Check config = false) :
    AddConfig D config s = .ret (some "config contains bad value") s := by
  simp [AddConfig, hcheck]

/-- Witness of C2: a candidate with quorum 0 fails `Check`. -/
theorem AddConfig_invalid_no_mutation_witness :
    AddConfig (sampleDeps true) ⟨0, "b"⟩ (sampleSys ⟨3, "a"⟩ (memClient none) [])
      = .ret (some "config contains bad value") (sampleSys ⟨3, "a"⟩ (memClient none) []) :=
  AddConfig_invalid_no_mutation (sampleDeps true) (sampleSys ⟨3, "a"⟩ (memClient none) [])
    ⟨0, "b"⟩ (by decide)

/-- C3: when the candidate passes `Check` and encodes, and the `Set` succeeds, `AddConfig`
returns nil, has issued one `Set`, of the encoding to the key `<root>/config`, and
`GetConfig` then returns the candidate. -/
theorem AddConfig_success (D : Deps Config Node Bytes σ)
    (s : Sys Config Node Bytes σ) (config : Config) (data : Bytes) (cl : Client σ Bytes)
    (hcheck : D.Check config = true)
    (henc : D.marshalConfig config = .ok data)
    (hcl : s.c.clnt = some cl)
    (hset : (cl.Set s.w.store (strings.Join [D.ClmgrKey, "config"] "/") data).2 = none) :
    ∃ s1, AddConfig D config s = .ret none s1 ∧
      s1.w.sets = s.w.sets ++ [(D.ClmgrKey ++ "/" ++ "config", data)] ∧
      GetConfig s1.c = config := by
  refine ⟨((s.clntSet cl (strings.Join [D.ClmgrKey, "config"] "/") data).1).setConfig config,
    ?_, rfl, rfl⟩
  simp only [AddConfig, hcheck, henc, hcl, Sys.clntSet, hset]
  rfl

/-- Witness of C3: a valid candidate written through a working client. -/
theorem AddConfig_success_witness :
    ∃ s1, AddConfig (sampleDeps true) ⟨5, "b"⟩ (sampleSys ⟨3, "a"⟩ (memClient none) [])
        = .ret none s1 ∧
      s1.w.sets = (sampleSys ⟨3, "a"⟩ (memClient none) []).w.sets ++
        [((sampleDeps true).ClmgrKey ++ "/" ++ "config",
          Doc.object [("Quorum", .number 5), ("Name", .string "b")])] ∧
      GetConfig s1.c = ⟨5, "b"⟩ :=
  AddConfig_success (sampleDeps true) (sampleSys ⟨3, "a"⟩ (memClient none) [])
    ⟨5, "b"⟩ (.object [("Quorum", .number 5), ("Name", .string "b")]) (memClient none)
    (by decide) rfl rfl rfl

end AddConfigThms

/-! ## initConfig -/

section InitConfigThms

variable {Config Node Bytes σ : Type}

/-- C4 (seed-once): on a coordinator that holds the configuration `New` gave it and the
client `cl`, when the root is `/cluster`, the `Get` succeeds with no entry at the
configuration key, the default configuration encodes and the `Set` succeeds, `initConfig`
returns having issued one `Set`, of the encoding of the default configuration to the key
`<root>/config`; nothing is sent on the error channel and the configuration is still the
default one. -/
theorem initConfig_seed_once (D : Deps Config Node Bytes σ) (s : Sys Config Node Bytes σ)
    (cl : Client σ Bytes) (m : List (String × Bytes)) (data : Bytes)
    (hroot : D.ClmgrKey = "/cluster")
    (hnew : s.c.config = (New D).config)
    (hcl : s.c.clnt = some cl)
    (hget : cl.Get s.w.store (strings.Join [D.ClmgrKey, "config"] "/") = (m, none))
    (habsent : m.lookup (strings.Join [D.ClmgrKey, "config"] "/") = none)
    (henc : D.marshalConfig D.DefaultConfig = .ok data)
    (hset : (cl.Set s.w.store (strings.Join [D.ClmgrKey, "config"] "/") data).2 = none) :
    ∃ s1, initConfig D s = .ret () s1 ∧
      s1.w.sets = s.w.sets ++ [(D.ClmgrKey ++ "/" ++ "config", data)] ∧
      s1.w.errChan = s.w.errChan ∧
      GetConfig s1.c = D.DefaultConfig := by
  rw [configKey_of_root D.ClmgrKey hroot] at habsent
  have hcfg : s.c.config = D.DefaultConfig := hnew
  refine ⟨(s.clntSet cl (strings.Join [D.ClmgrKey, "config"] "/") data).1, ?_, rfl, rfl, hcfg⟩
  simp only [initConfig, hcl, hget, habsent, hcfg, henc, Sys.clntSet, hset]

/-- Witness of C4: the concrete coordinator, as `New` makes it and with a client, started
on an empty store. -/
theorem initConfig_seed_once_witness :
    ∃ s1, initConfig (sampleDeps true)
        ⟨{ New (sampleDeps true) with clnt := some (memClient none) },
          { store := [], sets := [], errChan := [], ttlCalls := [] }⟩ = .ret () s1 ∧
      s1.w.sets = [] ++ [((sampleDeps true).ClmgrKey ++ "/" ++ "config",
        Doc.object [("Quorum", .number 1), ("Name", .string "default")])] ∧
      s1.w.errChan = [] ∧
      GetConfig s1.c = (sampleDeps true).DefaultConfig :=
  initConfig_seed_once (sampleDeps true)
    ⟨{ New (sampleDeps true) with clnt := some (memClient none) },
      { store := [], sets := [], errChan := [], ttlCalls := [] }⟩ (memClient none) []
    (.object [("Quorum", .number 1), ("Name", .string "default")]) rfl rfl rfl rfl rfl rfl rfl

/-- C5 (adopt): when the root is `/cluster`, the codec decodes what it encodes, and the
`Get` succeeds with the encoding of `C` at the configuration key, `initConfig` returns with
the configuration `C`, whatever it was before, and with everything around the coordinator
as it was: no `Set` was issued and nothing was sent on the error channel. -/
theorem initConfig_adopt (D : Deps Config Node Bytes σ) (s : Sys Config Node Bytes σ)
    (cl : Client σ Bytes) (m : List (String × Bytes)) (data : Bytes) (C : Config)
    (hroot : D.ClmgrKey = "/cluster")
    (hfaith : D.Faithful)
    (hcl : s.c.clnt = some cl)
    (hget : cl.Get s.w.store (strings.Join [D.ClmgrKey, "config"] "/") = (m, none))
    (hheld : m.lookup (strings.Join [D.ClmgrKey, "config"] "/") = some data)
    (henc : D.marshalConfig C = .ok data) :
    ∃ s1, initConfig D s = .ret () s1 ∧ GetConfig s1.c = C ∧ s1.w.sets = s.w.sets ∧
      s1.w = s.w := by
  rw [configKey_of_root D.ClmgrKey hroot] at hheld
  refine ⟨s.setConfig C, ?_, rfl, rfl, rfl⟩
  simp only [initConfig, hcl, hget, hheld, hfaith C data henc s.c.config]

/-- Witness of C5: the concrete coordinator, holding one configuration, started on a store
that holds another. -/
theorem initConfig_adopt_witness :
    ∃ s1, initConfig (sampleDeps true) (sampleSys ⟨3, "a"⟩ (memClient none)
        [("/cluster/config", .object [("Quorum", .number 5), ("Name", .string "b")])])
        = .ret () s1 ∧
      GetConfig s1.c = ⟨5, "b"⟩ ∧
      s1.w.sets = (sampleSys ⟨3, "a"⟩ (memClient none)
        [("/cluster/config", .object [("Quorum", .number 5), ("Name", .string "b")])]).w.sets ∧
      s1.w = (sampleSys ⟨3, "a"⟩ (memClient none)
        [("/cluster/config", .object [("Quorum", .number 5), ("Name", .string "b")])]).w :=
  initConfig_adopt (sampleDeps true)
    (sampleSys ⟨3, "a"⟩ (memClient none)
      [("/cluster/config", .object [("Quorum", .number 5), ("Name", .string "b")])])
    (memClient none)
    [("/cluster/config", .object [("Quorum", .number 5), ("Name", .string "b")])]
    (.object [("Quorum", .number 5), ("Name", .string "b")]) ⟨5, "b"⟩
    rfl (sampleDeps_faithful true) rfl (by decide) (by decide) rfl

/-- What `initConfig` does when the stored value fails to decode: it returns having sent
the error of the decoder, with no `Set` issued, and the configuration is the value the
decoder left in it. -/
theorem initConfig_decode_failure (D : Deps Config Node Bytes σ)
    (s : Sys Config Node Bytes σ) (cl : Client σ Bytes) (m : List (String × Bytes))
    (data : Bytes) (err : String)
    (hcl : s.c.clnt = some cl)
    (hget : cl.Get s.w.store (strings.Join [D.ClmgrKey, "config"] "/") = (m, none))
    (hheld : m.lookup "/cluster/config" = some data)
    (hfail : (D.unmarshalConfig data s.c.config).2 = some err) :
    ∃ s1, initConfig D s = .ret () s1 ∧ s1.w.errChan = s.w.errChan ++ [err] ∧
      s1.w.sets = s.w.sets ∧ GetConfig s1.c = (D.unmarshalConfig data s.c.config).1 := by
  refine ⟨(s.setConfig (D.unmarshalConfig data s.c.config).1).send err, ?_, rfl, rfl, rfl⟩
  simp only [initConfig, hcl, hget, hheld]
  rcases hd : D.unmarshalConfig data s.c.config with ⟨cfg, e⟩
  rw [hd] at hfail
  simp only at hfail
  subst hfail
  rfl

/-- C6, the code at a stored value that fails to decode: the coordinator holds quorum 3 and
name "a", the store holds an object whose quorum is 5 and whose name is a number.
`initConfig` sends one error and issues no `Set`, and the configuration is left with quorum
5: the field decoded before the failure has been overwritten. -/
theorem initConfig_decode_failure_overwrites :
    (initConfig (sampleDeps true) (sampleSys ⟨3, "a"⟩ (memClient none)
        [("/cluster/config", .object [("Quorum", .number 5), ("Name", .number 7)])])).state.w.errChan
        = ["json: cannot unmarshal into Go struct field Config.Name of type string"] ∧
      (initConfig (sampleDeps true) (sampleSys ⟨3, "a"⟩ (memClient none)
        [("/cluster/config", .object [("Quorum", .number 5), ("Name", .number 7)])])).state.w.sets
        = [] ∧
      GetConfig (initConfig (sampleDeps true) (sampleSys ⟨3, "a"⟩ (memClient none)
        [("/cluster/config", .object [("Quorum", .number 5), ("Name", .number 7)])])).state.c
        = ⟨5, "a"⟩ ∧
      GetConfig (initConfig (sampleDeps true) (sampleSys ⟨3, "a"⟩ (memClient none)
        [("/cluster/config", .object [("Quorum", .number 5), ("Name", .number 7)])])).state.c
        ≠ GetConfig (sampleSys ⟨3, "a"⟩ (memClient none)
        [("/cluster/config", .object [("Quorum", .number 5), ("Name", .number 7)])]).c := by
  decide

end InitConfigThms

/-! ## watchConfig -/

section WatchThms

variable {Config Node Bytes σ : Type}

/-- C7 (watch convergence): an event of the configuration watch that is a creation or a
modification and carries the encoding of `C2` leaves the configuration `C2`, whatever it
was before, when the codec decodes what it encodes; an event of any other kind leaves the
state as it was: the configuration is the same and nothing is sent on the error channel. -/
theorem watchConfigEvent_converges (D : Deps Config Node Bytes σ)
    (s : Sys Config Node Bytes σ) (e : Event Bytes) (C2 : Config) :
    (D.Faithful → (e.IsCreate || e.IsModify) = true → D.marshalConfig C2 = .ok e.Kv.Value →
      GetConfig (watchConfigEvent D e s).c = C2) ∧
    ((e.IsCreate || e.IsModify) = false → watchConfigEvent D e s = s) := by
  constructor
  · intro hfaith hkind henc
    have hk : (e.IsModify || e.IsCreate) = true := by rw [Bool.or_comm]; exact hkind
    simp only [watchConfigEvent, hk, if_true, hfaith C2 e.Kv.Value henc s.c.config]
    rfl
  · intro hkind
    have hk : (e.IsModify || e.IsCreate) = false := by rw [Bool.or_comm]; exact hkind
    simp [watchConfigEvent, hk]

/-- Witness of C7: a modification that carries a new configuration, and a deletion. -/
theorem watchConfigEvent_converges_witness :
    GetConfig (watchConfigEvent (sampleDeps true)
        ⟨.PUT, ⟨"/cluster/config", 4, 9, .object [("Quorum", .number 5), ("Name", .string "b")]⟩⟩
        (sampleSys ⟨3, "a"⟩ (memClient none) [])).c = ⟨5, "b"⟩ ∧
      watchConfigEvent (sampleDeps true) ⟨.DELETE, ⟨"/cluster/config", 4, 9, .garbage ""⟩⟩
        (sampleSys ⟨3, "a"⟩ (memClient none) []) = sampleSys ⟨3, "a"⟩ (memClient none) [] :=
  ⟨(watchConfigEvent_converges (sampleDeps true) (sampleSys ⟨3, "a"⟩ (memClient none) [])
      ⟨.PUT, ⟨"/cluster/config", 4, 9, .object [("Quorum", .number 5), ("Name", .string "b")]⟩⟩
      ⟨5, "b"⟩).1 (sampleDeps_faithful true) (by decide) rfl,
   (watchConfigEvent_converges (sampleDeps true) (sampleSys ⟨3, "a"⟩ (memClient none) [])
      ⟨.DELETE, ⟨"/cluster/config", 4, 9, .garbage ""⟩⟩ ⟨5, "b"⟩).2 (by decide)⟩

end WatchThms

/-! ## watchNodes -/

section WatchNodesThms

variable {Config Node Bytes σ : Type}

/-- Each entry of a snapshot either decodes to a node or gives an error. -/
theorem length_decodedNodes_add_decodeErrors (D : Deps Config Node Bytes σ)
    (entries : List (String × Bytes)) :
    (decodedNodes D entries).length + (decodeErrors D entries).length = entries.length := by
  induction entries with
  | nil => rfl
  | cons entry rest ih =>
    rcases hd : D.unmarshalNode entry.2 D.zeroNode with ⟨n, _ | err⟩
    · simp only [decodedNodes, decodeErrors, List.filterMap_cons, hd, List.length_cons] at ih ⊢
      omega
    · simp only [decodedNodes, decodeErrors, List.filterMap_cons, hd, List.length_cons] at ih ⊢
      omega

/-- The first loop of `watchNodes`, over any snapshot: the pool receives one `Add` for each
entry that decodes, the error channel the error of each entry that does not, and nothing
else changes. -/
theorem foldl_watchNodesEntry (D : Deps Config Node Bytes σ)
    (entries : List (String × Bytes)) (s : Sys Config Node Bytes σ) :
    (entries.foldl (fun s entry => watchNodesEntry D entry s) s).c.nodePool =
        s.c.nodePool ++ (decodedNodes D entries).map (fun n => PoolCall.Add n false) ∧
      (entries.foldl (fun s entry => watchNodesEntry D entry s) s).w.errChan =
        s.w.errChan ++ decodeErrors D entries ∧
      (entries.foldl (fun s entry => watchNodesEntry D entry s) s).w.sets = s.w.sets ∧
      (entries.foldl (fun s entry => watchNodesEntry D entry s) s).c.config = s.c.config := by
  induction entries generalizing s with
  | nil => simp [decodedNodes, decodeErrors]
  | cons entry rest ih =>
    rcases hd : D.unmarshalNode entry.2 D.zeroNode with ⟨n, _ | err⟩
    · have hstep : watchNodesEntry D entry s = s.poolAdd n false := by
        simp only [watchNodesEntry, hd]
      obtain ⟨h1, h2, h3, h4⟩ := ih (s.poolAdd n false)
      simp only [List.foldl_cons, hstep, decodedNodes, decodeErrors, List.filterMap_cons, hd]
      simp only [decodedNodes, decodeErrors] at h1 h2
      refine ⟨?_, ?_, h3, h4⟩
      · rw [h1]; simp [Sys.poolAdd]
      · rw [h2]; rfl
    · have hstep : watchNodesEntry D entry s = s.send err := by
        simp only [watchNodesEntry, hd]
      obtain ⟨h1, h2, h3, h4⟩ := ih (s.send err)
      simp only [List.foldl_cons, hstep, decodedNodes, decodeErrors, List.filterMap_cons, hd]
      simp only [decodedNodes, decodeErrors] at h1 h2
      refine ⟨?_, ?_, h3, h4⟩
      · rw [h1]; rfl
      · rw [h2]; simp [Sys.send, World.send]

/-- C8 (registry bootstrap): when the `Get` of the node keys succeeds with `N` entries of
which one fails to decode, the first part of `watchNodes` returns, the pool has received
one `Add`, with the self flag false, for each entry that decodes, of the node it decodes
to and in the order of the entries, which are `N - 1` calls, and the error channel has
received the one error of the entry that fails. -/
theorem watchNodesBootstrap_one_corrupted (D : Deps Config Node Bytes σ)
    (s : Sys Config Node Bytes σ) (cl : Client σ Bytes) (entries : List (String × Bytes))
    (hcl : s.c.clnt = some cl)
    (hget : cl.Get s.w.store (strings.Join [D.ClmgrKey, "nodes"] "/") = (entries, none))
    (hone : (decodeErrors D entries).length = 1) :
    ∃ s1, watchNodesBootstrap D s = .ret () s1 ∧
      s1.c.nodePool =
        s.c.nodePool ++ (decodedNodes D entries).map (fun n => PoolCall.Add n false) ∧
      ((decodedNodes D entries).map
        (fun n => (PoolCall.Add n false : PoolCall Node Bytes))).length = entries.length - 1 ∧
      ∃ err, decodeErrors D entries = [err] ∧ s1.w.errChan = s.w.errChan ++ [err] := by
  obtain ⟨h1, h2, _, _⟩ := foldl_watchNodesEntry D entries s
  obtain ⟨err, herr⟩ := List.length_eq_one.mp hone
  have hlen := length_decodedNodes_add_decodeErrors D entries
  refine ⟨entries.foldl (fun s entry => watchNodesEntry D entry s) s, ?_, h1, ?_, err, herr, ?_⟩
  · simp only [watchNodesBootstrap, hcl, hget]
  · rw [List.length_map]; omega
  · rw [h2, herr]

/-- Witness of C8: a snapshot of three entries, the second of which is no JSON text. -/
theorem watchNodesBootstrap_one_corrupted_witness :
    ∃ s1, watchNodesBootstrap (sampleDeps true) (sampleSys ⟨3, "a"⟩ (memClient none)
        [("/cluster/nodes/h1", .object [("Name", .string "h1"), ("Alive", .bool true)]),
         ("/cluster/nodes/h2", .garbage "not json"),
         ("/cluster/nodes/h3", .object [("Name", .string "h3")])]) = .ret () s1 ∧
      s1.c.nodePool = [] ++ (decodedNodes (sampleDeps true)
        [("/cluster/nodes/h1", .object [("Name", .string "h1"), ("Alive", .bool true)]),
         ("/cluster/nodes/h2", .garbage "not json"),
         ("/cluster/nodes/h3", .object [("Name", .string "h3")])]).map
          (fun n => PoolCall.Add n false) ∧
      ((decodedNodes (sampleDeps true)
        [("/cluster/nodes/h1", .object [("Name", .string "h1"), ("Alive", .bool true)]),
         ("/cluster/nodes/h2", .garbage "not json"),
         ("/cluster/nodes/h3", .object [("Name", .string "h3")])]).map
          (fun n => (PoolCall.Add n false : PoolCall SampleNode Doc))).length = 3 - 1 ∧
      ∃ err, decodeErrors (sampleDeps true)
        [("/cluster/nodes/h1", .object [("Name", .string "h1"), ("Alive", .bool true)]),
         ("/cluster/nodes/h2", .garbage "not json"),
         ("/cluster/nodes/h3", .object [("Name", .string "h3")])] = [err] ∧
        s1.w.errChan = [] ++ [err] :=
  watchNodesBootstrap_one_corrupted (sampleDeps true) (sampleSys ⟨3, "a"⟩ (memClient none)
      [("/cluster/nodes/h1", .object [("Name", .string "h1"), ("Alive", .bool true)]),
       ("/cluster/nodes/h2", .garbage "not json"),
       ("/cluster/nodes/h3", .object [("Name", .string "h3")])])
    (memClient none)
    [("/cluster/nodes/h1", .object [("Name", .string "h1"), ("Alive", .bool true)]),
     ("/cluster/nodes/h2", .garbage "not json"),
     ("/cluster/nodes/h3", .object [("Name", .string "h3")])]
    rfl (by decide) (by decide)

/-- C10: for every event of the node watch, the pool receives one call and the error
channel nothing: the call is `Change`, of the key and the value of the event, when the
event is a modification, and otherwise `Add`, with the self flag false, of what decoding
the value into a new node leaves in it, whether the decoding fails or not. -/
theorem watchNodesEvent_one_call (D : Deps Config Node Bytes σ)
    (s : Sys Config Node Bytes σ) (e : Event Bytes) :
    (watchNodesEvent D e s).c.nodePool = s.c.nodePool ++
        [if e.IsModify then PoolCall.Change e.Kv.Key e.Kv.Value
         else PoolCall.Add (D.unmarshalNode e.Kv.Value D.zeroNode).1 false] ∧
      (watchNodesEvent D e s).w.errChan = s.w.errChan := by
  cases hk : e.IsModify <;> simp [watchNodesEvent, hk, Sys.poolAdd, Sys.poolChange]

end WatchNodesThms

/-! ## updateAlive -/

section UpdateAliveThms

variable {Config Node Bytes σ : Type}

/-- C9, the code when no lease-backed client can be had: the round sends the error and
goes on to call `Set` on the nil client, where it panics: the round is not skipped, and a
loop of any number of rounds ends in that panic. -/
theorem updateAliveTick_nil_client_panics (D : Deps Config Node Bytes σ)
    (w : World Bytes σ) (hnil : D.GetTTLClient w.store 30 = none) :
    updateAliveTick D w
        = .panic "nil dereference: ttlclnt.Set" (w.send "can't create TTL client") ∧
      ∀ n : Nat, (updateAlive D (n + 1) w).panicked = true := by
  have htick : updateAliveTick D w
      = .panic "nil dereference: ttlclnt.Set" (w.send "can't create TTL client") := by
    simp only [updateAliveTick, hnil]
  refine ⟨htick, fun n => ?_⟩
  simp only [updateAlive, htick, Outcome.panicked]

/-- Witness of C9: the concrete coordinator without lease-backed clients. -/
theorem updateAliveTick_nil_client_panics_witness :
    updateAliveTick (sampleDeps false)
        ({ store := [], sets := [], errChan := [], ttlCalls := [] } : World Doc MemStore)
        = .panic "nil dereference: ttlclnt.Set"
          (World.send "can't create TTL client"
            { store := [], sets := [], errChan := [], ttlCalls := [] }) ∧
      ∀ n : Nat, (updateAlive (sampleDeps false) (n + 1)
        ({ store := [], sets := [], errChan := [], ttlCalls := [] } : World Doc MemStore)).panicked
          = true :=
  updateAliveTick_nil_client_panics (sampleDeps false)
    { store := [], sets := [], errChan := [], ttlCalls := [] } rfl

end UpdateAliveThms

end Clmgr
